import Mathlib

/-!
Verification of the patchpilot scan-and-remediate pipeline.

This file gives a shallow embedding of the pipeline implemented in
src/main.py (repository clone, SAST tool invocation, per-finding LLM
remediation suggestion, report rendering) and of the remediation proxy
endpoint in src/remote_LLM.py, and proves or refutes the frozen claims
about them.

Modelling conventions:
- A parsed finding dictionary is modelled by the four keys the code
  reads (issue_severity, issue_text, filename, line_number), each an
  Option since dict.get with a default is used everywhere.
- External effects (the HTTP call of get_llm_suggestion, the child
  process spawn and the output artifact of run_sast_tool, the backend
  call of generate_text) are modelled by explicit environment values
  passed as arguments; the Python functions are then total functions of
  the finding and that environment.
- Python None is Option.none; Python string falsiness (the empty string)
  is tested explicitly where the code relies on it.
- Log output relevant to the report is modelled as the list of rendered
  lines; incidental timing and diagnostic log lines are not modelled.
-/

namespace PatchPilot

/-- One parsed finding dictionary, restricted to the keys read by
src/main.py. Each field is optional because the code only ever accesses
them through dict.get with a default. -/
structure Finding where
  issue_severity : Option String
  issue_text : Option String
  filename : Option String
  line_number : Option Int
deriving DecidableEq

/-- Models the Python str.upper method, structurally over the character
list so that proofs can evaluate it on literals. -/
def pyUpper (s : String) : String := ⟨s.data.map Char.toUpper⟩

/-- Models the Python str.strip method with no argument: leading and
trailing whitespace is removed. Defined structurally over the character
list so that proofs can evaluate it on literals. -/
def pyStrip (s : String) : String :=
  ⟨((s.data.dropWhile Char.isWhitespace).reverse.dropWhile Char.isWhitespace).reverse⟩

/-- Models finding.get(key, "N/A") for the string-valued keys. -/
def optNA (o : Option String) : String := o.getD "N/A"

/-- Models the f-string rendering of finding.get("line_number", "N/A"):
an integer value is formatted, an absent value renders as N/A. -/
def lineNA : Option Int → String
  | some n => toString n
  | none => "N/A"

/-- The module-level constant REMOTE_MODEL_URL of src/main.py. -/
def REMOTE_MODEL_URL : String := "http://192.168.1.13:9000/generate"

/-- The prompt built by get_llm_suggestion (src/main.py lines 88-92),
translated piecewise from the three adjacent f-strings. -/
def llm_prompt (f : Finding) : String :=
  ("Given this security finding: " ++ optNA f.issue_text ++ " ") ++
  ("in file " ++ optNA f.filename ++ " at line " ++ lineNA f.line_number ++ ", ") ++
  "generate a concise and correct security fix. Keep the response under 100 words."

/-- Restatement of the prompt template in the words of spec section 4.3:
a fixed template over message, file path and line number, each replaced
by the literal N/A when absent, followed by the fixed instruction
requesting a fix under 100 words. Used only to compare with llm_prompt. -/
def spec_prompt (f : Finding) : String :=
  let msg := match f.issue_text with
    | some m => m
    | none => "N/A"
  let path := match f.filename with
    | some p => p
    | none => "N/A"
  let line := match f.line_number with
    | some n => toString n
    | none => "N/A"
  "Given this security finding: " ++ msg ++ " in file " ++ path ++
    " at line " ++ line ++
    ", generate a concise and correct security fix. Keep the response under 100 words."

/-- The observable parameters of one outbound HTTP POST made with the
requests library; timeout = none means no timeout keyword was passed, so
the blocking call is unbounded. -/
structure HttpRequest where
  url : String
  prompt_body : String
  timeout : Option Nat
deriving DecidableEq

/-- The single request issued by get_llm_suggestion (src/main.py line 95):
requests.post(REMOTE_MODEL_URL, json = the prompt dict) with no timeout
keyword argument. -/
def llm_request (f : Finding) : HttpRequest :=
  { url := REMOTE_MODEL_URL, prompt_body := llm_prompt f, timeout := none }

/-- The trace of HTTP requests issued by one call of get_llm_suggestion:
the body of the function performs exactly one unconditional requests.post
before any branching, so the trace is a singleton. -/
def llm_requests (f : Finding) : List HttpRequest := [llm_request f]

/-- The body of an HTTP response as observed through response.json():
either .json() raises (the body is not JSON), or it yields a dict whose
generated_text key may be absent. -/
inductive RespBody where
  | notJson : RespBody
  | json : Option String → RespBody
deriving DecidableEq

/-- The outcome of the requests.post call in get_llm_suggestion: either
the call raises (network failure, timeout, connection error), or a
response with a status code and a body arrives. -/
inductive HttpOutcome where
  | exn : HttpOutcome
  | resp : Nat → RespBody → HttpOutcome
deriving DecidableEq

/-- get_llm_suggestion of src/main.py (lines 85-107), as a function of
the finding and of the outcome of its single HTTP call. The finding only
determines the issued request (llm_request); the returned value depends
on the response: status 200 with a JSON body yields the stripped value
of generated_text defaulted to the empty string, any other status yields
None, and a raised exception is caught and yields None. -/
def get_llm_suggestion (f : Finding) (o : HttpOutcome) : Option String :=
  match o with
  | HttpOutcome.exn => none
  | HttpOutcome.resp status body =>
    if status = 200 then
      match body with
      | RespBody.notJson => none
      | RespBody.json gt => some (pyStrip (gt.getD ""))
    else none

/-- The failure modes of one remediation request named by the claims:
a transport exception, a non-2xx status, or a well-status response whose
body is not JSON. -/
def requestFailed (o : HttpOutcome) : Prop :=
  o = HttpOutcome.exn ∨
  (∃ s b, o = HttpOutcome.resp s b ∧ (s < 200 ∨ 300 ≤ s)) ∨
  (∃ s, o = HttpOutcome.resp s RespBody.notJson)

/-- The suggestion line of one report entry (src/main.py line 120):
the suggestion is stripped and printed when truthy (not None and not the
empty string), otherwise the literal marker is printed. -/
def suggestionLine (sugg : Option String) : String :=
  "Suggestion: " ++
    (match sugg with
     | none => "No suggestion available."
     | some s => if s = "" then "No suggestion available." else pyStrip s) ++
  "\n"

/-- The four log lines rendered for one finding by the loop body of
print_results (src/main.py lines 116-120). -/
def findingEntry (f : Finding) (sugg : Option String) : List String :=
  [ "Severity: " ++ optNA f.issue_severity
  , "Issue: " ++ optNA f.issue_text
  , "File: " ++ optNA f.filename ++ ":" ++ lineNA f.line_number
  , suggestionLine sugg ]

/-- The loop of print_results (src/main.py lines 115-120): findings are
visited in list order and the i-th visit performs the i-th HTTP call,
whose outcome is net i. -/
def renderFindings : List Finding → (Nat → HttpOutcome) → Nat → List String
  | [], _, _ => []
  | f :: fs, net, i =>
      findingEntry f (get_llm_suggestion f (net i)) ++ renderFindings fs net (i + 1)

/-- The report as an ordered sequence of pairs (finding, suggestion):
the pairing performed by the same loop, keeping for each finding the
value returned by its own get_llm_suggestion call. -/
def reportPairs : List Finding → (Nat → HttpOutcome) → Nat → List (Finding × Option String)
  | [], _, _ => []
  | f :: fs, net, i =>
      (f, get_llm_suggestion f (net i)) :: reportPairs fs net (i + 1)

/-- The top-level JSON value loaded from the output artifact, restricted
to what print_results and main observe: whether a results key is present
(and its list of findings), and whether any other keys make the dict
truthy on their own. -/
structure ResultsJson where
  resultsKey : Option (List Finding)
  otherKeys : Bool
deriving DecidableEq

/-- Python truthiness of the loaded dict: nonempty, that is, it has the
results key or some other key. -/
def pyTruthy (r : ResultsJson) : Bool := r.resultsKey.isSome || r.otherKeys

/-- print_results of src/main.py (lines 111-122): when the results value
is truthy and has a results key, the section header is logged and each
finding is rendered in order; otherwise the no-results line is logged. -/
def print_results (tool : String) (r : Option ResultsJson) (net : Nat → HttpOutcome) :
    List String :=
  match r with
  | some rj =>
    match rj.resultsKey with
    | some findings =>
        ("\n--- " ++ pyUpper tool ++ " Scan Results with LLM Suggestions ---")
          :: renderFindings findings net 0
    | none => ["No results from " ++ tool ++ "."]
  | none => ["No results from " ++ tool ++ "."]

/-- The outcome of subprocess.run in run_sast_tool: either the
executable is missing (FileNotFoundError is raised), or the child
process ran and exited with some code. check=False is passed, so the
exit code raises nothing. -/
inductive SpawnOutcome where
  | notFound : SpawnOutcome
  | ran : Int → SpawnOutcome
deriving DecidableEq

/-- The state of the output artifact after the child process step:
absent, present but not decodable as JSON, or present and decodable. -/
inductive Artifact where
  | missing : Artifact
  | invalid : Artifact
  | valid : ResultsJson → Artifact
deriving DecidableEq

/-- run_sast_tool of src/main.py (lines 44-66), as a function of the
tool name, the spawn outcome and the artifact state. An unsupported tool
returns None before any spawn. A missing executable raises
FileNotFoundError, which is caught and returns None. Otherwise the exit
code is ignored; the file is read only if it exists, a JSON decode error
is caught and returns None, and a decoded value is returned. A missing
file falls through to the final return None. -/
def run_sast_tool (tool : String) (spawn : SpawnOutcome) (art : Artifact) :
    Option ResultsJson :=
  if tool = "bandit" ∨ tool = "semgrep" then
    match spawn with
    | SpawnOutcome.notFound => none
    | SpawnOutcome.ran _ =>
      match art with
      | Artifact.missing => none
      | Artifact.invalid => none
      | Artifact.valid r => some r
  else none

/-- main of src/main.py (lines 124-140), from the clone step onward.
The first component is the process exit code: main returns normally on
every path modelled here, so the interpreter exits with code 0. The
second component is the report-stage log output: nothing after a failed
clone, the no-findings line when the scan result is None or falsy, and
the print_results rendering otherwise. -/
def main_run (cloneOk : Bool) (tool : String) (spawn : SpawnOutcome)
    (art : Artifact) (net : Nat → HttpOutcome) : Nat × List String :=
  if cloneOk then
    match run_sast_tool tool spawn art with
    | some r =>
        if pyTruthy r then (0, print_results tool (some r) net)
        else (0, ["\nNo security findings detected."])
    | none => (0, ["\nNo security findings detected."])
  else (0, [])

/-- The request body of POST /generate in src/remote_LLM.py, restricted
to the fields its handler reads. The temperature field is a float and is
only forwarded opaquely to the backend, so it is omitted from the
shallow embedding. -/
structure GenerateRequest where
  prompt : String
  model : String := "llama2"
  max_length : Nat := 750
deriving DecidableEq

/-- The body of the backend (Ollama) HTTP response as observed through
response.json(): either it raises, or it yields a dict whose response
key may be absent. -/
inductive OllamaBody where
  | notJson : OllamaBody
  | json : Option String → OllamaBody
deriving DecidableEq

/-- The outcome of the requests.post call to the backend inside
generate_text: a raised RequestException, or a response with a status
code and a body. -/
inductive BackendOutcome where
  | exn : BackendOutcome
  | resp : Nat → OllamaBody → BackendOutcome
deriving DecidableEq

/-- The continuation text the backend contributed: the response field of
its JSON body, defaulted to the empty string, and empty in every
non-JSON or failed case. -/
def backendContinuation : BackendOutcome → String
  | BackendOutcome.resp _ (OllamaBody.json r) => r.getD ""
  | _ => ""

/-- generate_text of src/remote_LLM.py (lines 41-78), as a function of
the request and the backend outcome, returning either an HTTP error
status or the success body value of generated_text. A raised
RequestException maps to 503; a non-200 backend status maps to 500; a
backend body that fails to decode raises the JSONDecodeError of the
requests library, a RequestException subclass, hence also 503; a decoded
body yields the request prompt concatenated with the backend response
field defaulted to the empty string. -/
def generate_text (req : GenerateRequest) (b : BackendOutcome) : Except Nat String :=
  match b with
  | BackendOutcome.exn => Except.error 503
  | BackendOutcome.resp status body =>
    if status ≠ 200 then Except.error 500
    else
      match body with
      | OllamaBody.notJson => Except.error 503
      | OllamaBody.json r => Except.ok (req.prompt ++ r.getD "")

/-- A concrete finding with every optional key absent, used by witnesses
and counterexamples. -/
def f0 : Finding :=
  { issue_severity := none, issue_text := none, filename := none, line_number := none }

/-- A concrete generate request with the default model and length. -/
def req0 : GenerateRequest := { prompt := "p" }

/-! ### Helper lemmas -/

/-- A failed remediation request of any of the three kinds named by the
claims is caught inside get_llm_suggestion and yields None. -/
theorem get_llm_suggestion_of_failed (f : Finding) (o : HttpOutcome)
    (h : requestFailed o) : get_llm_suggestion f o = none := by
  rcases h with h | ⟨s, b, rfl, hs⟩ | ⟨s, rfl⟩
  · subst h; rfl
  · have hne : s ≠ 200 := by omega
    simp [get_llm_suggestion, hne]
  · by_cases hs : s = 200 <;> simp [get_llm_suggestion, hs]

/-- When every call outcome is a failure, every pair of the assembled
report carries None as its suggestion. -/
theorem reportPairs_snd_none (net : Nat → HttpOutcome)
    (hfail : ∀ i, requestFailed (net i)) :
    ∀ (fs : List Finding) (k : Nat) (p : Finding × Option String),
      p ∈ reportPairs fs net k → p.2 = none := by
  intro fs
  induction fs with
  | nil => intro k p hp; simp [reportPairs] at hp
  | cons f fs ih =>
    intro k p hp
    simp only [reportPairs, List.mem_cons] at hp
    rcases hp with rfl | hp
    · exact get_llm_suggestion_of_failed f (net k) (hfail k)
    · exact ih (k + 1) p hp

/-- The loop renders exactly four lines per finding. -/
theorem renderFindings_length (net : Nat → HttpOutcome) :
    ∀ (fs : List Finding) (k : Nat),
      (renderFindings fs net k).length = 4 * fs.length := by
  intro fs
  induction fs with
  | nil => intro k; rfl
  | cons f fs ih =>
    intro k
    simp only [renderFindings, findingEntry, List.length_append, List.length_cons,
      List.length_nil, ih (k + 1)]
    omega

/-- Projecting the findings out of the assembled report gives back the
finding list itself. -/
theorem reportPairs_map_fst (net : Nat → HttpOutcome) :
    ∀ (fs : List Finding) (k : Nat),
      (reportPairs fs net k).map Prod.fst = fs := by
  intro fs
  induction fs with
  | nil => intro k; rfl
  | cons f fs ih => intro k; simp [reportPairs, ih (k + 1)]

/-- The j-th pair of the report built from position k pairs the j-th
finding with the outcome of call k + j. -/
theorem reportPairs_getElem? (net : Nat → HttpOutcome) :
    ∀ (fs : List Finding) (k j : Nat),
      (reportPairs fs net k)[j]? =
        (fs[j]?).map (fun f => (f, get_llm_suggestion f (net (k + j)))) := by
  intro fs
  induction fs with
  | nil => intro k j; simp [reportPairs]
  | cons f fs ih =>
    intro k j
    cases j with
    | zero => simp [reportPairs]
    | succ j =>
      have e : k + 1 + j = k + (j + 1) := by omega
      simp only [reportPairs, List.getElem?_cons_succ]
      rw [ih (k + 1) j, e]

/-- Reassociation of the three adjacent prompt pieces of the source into
the single spec template, for arbitrary substituted field texts. -/
theorem prompt_assoc (m p l : String) :
    ("Given this security finding: " ++ m ++ " ") ++
    ("in file " ++ p ++ " at line " ++ l ++ ", ") ++
    "generate a concise and correct security fix. Keep the response under 100 words."
      = "Given this security finding: " ++ m ++ " in file " ++ p ++
        " at line " ++ l ++
        ", generate a concise and correct security fix. Keep the response under 100 words." := by
  simp [String.append_assoc]
  congr 1

/-- The spec template written with its matches evaluated through optNA
and lineNA. -/
theorem spec_prompt_eq (f : Finding) :
    spec_prompt f
      = "Given this security finding: " ++ optNA f.issue_text ++ " in file " ++
        optNA f.filename ++ " at line " ++ lineNA f.line_number ++
        ", generate a concise and correct security fix. Keep the response under 100 words." := by
  obtain ⟨sev, msg, path, line⟩ := f
  cases msg <;> cases path <;> cases line <;> rfl

/-! ### Claim theorems -/

/-- C1: every failed remediation request (non-2xx response, malformed
body, or transport exception) is caught inside get_llm_suggestion and
the report entry for that finding degrades to the literal marker; no
failure aborts the pipeline, and when every call fails every entry is
marked unavailable while the report still renders one four-line entry
per finding under its header. -/
theorem remediation_failures_isolated (fs : List Finding) (b : Bool)
    (net : Nat → HttpOutcome) (p : Finding × Option String)
    (hfail : ∀ i, requestFailed (net i)) (hp : p ∈ reportPairs fs net 0) :
    p.2 = none ∧
    suggestionLine p.2 = "Suggestion: No suggestion available.\n" ∧
    (print_results "bandit" (some { resultsKey := some fs, otherKeys := b }) net).length
      = 1 + 4 * fs.length := by
  have h2 := reportPairs_snd_none net hfail fs 0 p hp
  refine ⟨h2, ?_, ?_⟩
  · rw [h2]; rfl
  · simp only [print_results, List.length_cons, renderFindings_length net fs 0]
    omega

/-- Witness for C1 at one finding whose single call raises a transport
exception. -/
theorem remediation_failures_isolated_witness :
    (f0, (none : Option String)).2 = none ∧
    suggestionLine (f0, (none : Option String)).2 = "Suggestion: No suggestion available.\n" ∧
    (print_results "bandit" (some { resultsKey := some [f0], otherKeys := true })
        (fun _ => HttpOutcome.exn)).length = 1 + 4 * [f0].length :=
  remediation_failures_isolated [f0] true (fun _ => HttpOutcome.exn) (f0, none)
    (fun _ => Or.inl rfl) (by decide)

/-- C2: the report pairs findings with suggestion outcomes in exactly
the order of the findings list: the projection of the pairs is the list
itself, the length is preserved, and the j-th entry pairs the j-th
finding with the outcome of the j-th call. -/
theorem report_preserves_finding_order (fs : List Finding)
    (net : Nat → HttpOutcome) (j : Nat) :
    (reportPairs fs net 0).map Prod.fst = fs ∧
    (reportPairs fs net 0).length = fs.length ∧
    (reportPairs fs net 0)[j]? =
      (fs[j]?).map (fun f => (f, get_llm_suggestion f (net j))) := by
  refine ⟨reportPairs_map_fst net fs 0, ?_, ?_⟩
  · have h := congrArg List.length (reportPairs_map_fst net fs 0)
    simpa using h
  · have h := reportPairs_getElem? net fs 0 j
    simpa using h

/-- C3: for a supported tool, the result of run_sast_tool never depends
on the exit code of the child process: any two exit codes give the same
result, a valid artifact succeeds whatever the exit code, and a missing
or undecodable artifact fails whatever the exit code. -/
theorem scan_success_ignores_exit_code (tool : String) (c c' : Int)
    (art : Artifact) (r : ResultsJson)
    (h : tool = "bandit" ∨ tool = "semgrep") :
    run_sast_tool tool (SpawnOutcome.ran c) art
      = run_sast_tool tool (SpawnOutcome.ran c') art ∧
    run_sast_tool tool (SpawnOutcome.ran c) (Artifact.valid r) = some r ∧
    run_sast_tool tool (SpawnOutcome.ran c) Artifact.missing = none ∧
    run_sast_tool tool (SpawnOutcome.ran c) Artifact.invalid = none := by
  rcases h with rfl | rfl <;> exact ⟨rfl, rfl, rfl, rfl⟩

/-- Witness for C3 at the bandit tool with exit codes 1 and 0. -/
theorem scan_success_ignores_exit_code_witness :
    run_sast_tool "bandit" (SpawnOutcome.ran 1) Artifact.invalid
      = run_sast_tool "bandit" (SpawnOutcome.ran 0) Artifact.invalid ∧
    run_sast_tool "bandit" (SpawnOutcome.ran 1)
        (Artifact.valid { resultsKey := some [], otherKeys := false })
      = some { resultsKey := some [], otherKeys := false } ∧
    run_sast_tool "bandit" (SpawnOutcome.ran 1) Artifact.missing = none ∧
    run_sast_tool "bandit" (SpawnOutcome.ran 1) Artifact.invalid = none :=
  scan_success_ignores_exit_code "bandit" 1 0 Artifact.invalid
    { resultsKey := some [], otherKeys := false } (Or.inl rfl)

/-- C4 counterexample: a missing executable and an undecodable artifact
both make run_sast_tool return the very same value None, so the two
failure outcomes are not distinguishable by the caller. -/
theorem scan_failures_return_equal_values :
    run_sast_tool "bandit" SpawnOutcome.notFound Artifact.missing = none ∧
    run_sast_tool "bandit" (SpawnOutcome.ran 0) Artifact.invalid = none ∧
    run_sast_tool "bandit" SpawnOutcome.notFound Artifact.missing
      = run_sast_tool "bandit" (SpawnOutcome.ran 0) Artifact.invalid :=
  ⟨rfl, rfl, rfl⟩

/-- C4 amended: every failure mode of run_sast_tool, for either
supported tool, returns the same value None; the failure kinds are told
apart only in the logged diagnostics, not in the value the caller gets. -/
theorem scan_failures_all_none (c : Int) (art : Artifact) :
    run_sast_tool "bandit" SpawnOutcome.notFound art = none ∧
    run_sast_tool "bandit" (SpawnOutcome.ran c) Artifact.missing = none ∧
    run_sast_tool "bandit" (SpawnOutcome.ran c) Artifact.invalid = none ∧
    run_sast_tool "semgrep" SpawnOutcome.notFound art = none ∧
    run_sast_tool "semgrep" (SpawnOutcome.ran c) Artifact.missing = none ∧
    run_sast_tool "semgrep" (SpawnOutcome.ran c) Artifact.invalid = none :=
  ⟨rfl, rfl, rfl, rfl, rfl, rfl⟩

/-- C5 counterexample: the single request issued by get_llm_suggestion
carries no timeout at all, contradicting the configured finite timeout
the claim asserts. -/
theorem llm_request_has_no_timeout : (llm_request f0).timeout = none := rfl

/-- C5 amended: each finding causes exactly one request attempt with no
retry, but that request sets no timeout, so the blocking call is not
bounded. -/
theorem one_request_no_retry_no_timeout (f : Finding) :
    llm_requests f = [llm_request f] ∧
    (llm_requests f).length = 1 ∧
    (llm_request f).timeout = none :=
  ⟨rfl, rfl, rfl⟩

/-- C6: the remediation prompt equals the fixed deterministic template
of the spec over message, file path and line number, with the literal
N/A substituted for each absent field, followed by the fixed instruction
requesting a fix under 100 words; being a function of the finding, equal
findings get equal prompts. -/
theorem llm_prompt_matches_spec_template (f : Finding) :
    llm_prompt f = spec_prompt f := by
  rw [spec_prompt_eq]
  exact prompt_assoc (optNA f.issue_text) (optNA f.filename) (lineNA f.line_number)

/-- C7 counterexample: on a repository acquisition failure, main returns
normally, so the process terminates with exit code 0, not with a
non-zero signal. -/
theorem clone_failure_exits_zero :
    main_run false "bandit" (SpawnOutcome.ran 0) Artifact.missing
      (fun _ => HttpOutcome.exn) = (0, []) := rfl

/-- C7 amended: every fatal pipeline error terminates the process with
exit code 0 (a normal return), never a non-zero signal; a failed clone
produces no report output, a failed scan logs only the no-findings line,
and a successful truthy scan always renders the print_results report. -/
theorem fatal_errors_exit_zero_no_report (tool : String) (spawn : SpawnOutcome)
    (art : Artifact) (net : Nat → HttpOutcome) (fs : List Finding) (b : Bool) (c : Int) :
    main_run false tool spawn art net = (0, []) ∧
    main_run true tool SpawnOutcome.notFound art net
      = (0, ["\nNo security findings detected."]) ∧
    (main_run true tool spawn art net).1 = 0 ∧
    main_run true "bandit" (SpawnOutcome.ran c)
        (Artifact.valid { resultsKey := some fs, otherKeys := b }) net
      = (0, print_results "bandit" (some { resultsKey := some fs, otherKeys := b }) net) := by
  refine ⟨rfl, ?_, ?_, ?_⟩
  · have h : run_sast_tool tool SpawnOutcome.notFound art = none := by
      unfold run_sast_tool; split <;> rfl
    simp [main_run, h]
  · rcases hr : run_sast_tool tool spawn art with _ | r
    · simp [main_run, hr]
    · simp only [main_run, hr, if_true]
      split <;> rfl
  · simp [main_run, run_sast_tool, pyTruthy]

/-- C8 counterexample: a successful scan whose results list is empty
renders only the section header, with no per-finding entry and no
explicit no-findings summary line, so the empty outcome is a silently
empty rendering. -/
theorem empty_findings_render_header_only :
    print_results "bandit" (some { resultsKey := some [], otherKeys := true })
      (fun _ => HttpOutcome.exn)
      = ["\n--- BANDIT Scan Results with LLM Suggestions ---"] := rfl

/-- C8 amended: an empty results list renders the header alone; the
summary line appears only when the loaded value is absent or lacks the
results key; a tool-invocation failure yields no scan result at all
(None), after which main logs the no-findings line, an outcome distinct
from the empty-success rendering. -/
theorem empty_findings_vs_failure (b : Bool) (net : Nat → HttpOutcome) (c : Int) :
    print_results "bandit" (some { resultsKey := some [], otherKeys := b }) net
      = ["\n--- BANDIT Scan Results with LLM Suggestions ---"] ∧
    print_results "bandit" none net = ["No results from bandit."] ∧
    print_results "bandit" (some { resultsKey := none, otherKeys := b }) net
      = ["No results from bandit."] ∧
    run_sast_tool "bandit" (SpawnOutcome.ran c) Artifact.missing = none ∧
    main_run true "bandit" (SpawnOutcome.ran c) Artifact.missing net
      = (0, ["\nNo security findings detected."]) :=
  ⟨rfl, rfl, rfl, rfl, rfl⟩

/-- C9: every successful response of POST /generate carries a
generated_text equal to the request prompt concatenated with the
continuation contributed by the backend, so the echoed prompt opens
every successful generated_text. -/
theorem generated_text_echoes_prompt (req : GenerateRequest) (b : BackendOutcome)
    (t : String) (h : generate_text req b = Except.ok t) :
    t = req.prompt ++ backendContinuation b := by
  cases b with
  | exn => simp [generate_text] at h
  | resp status body =>
    by_cases hs : status = 200
    · subst hs
      cases body with
      | notJson => simp [generate_text] at h
      | json r =>
        simp only [generate_text, ne_eq, not_true_eq_false, if_false, reduceIte,
          Except.ok.injEq] at h
        rw [← h]
        rfl
    · simp [generate_text, hs] at h

/-- Witness for C9 at a request with prompt p and a backend returning
the continuation x. -/
theorem generated_text_echoes_prompt_witness :
    ("px" : String)
      = req0.prompt ++ backendContinuation
          (BackendOutcome.resp 200 (OllamaBody.json (some "x"))) :=
  generated_text_echoes_prompt req0
    (BackendOutcome.resp 200 (OllamaBody.json (some "x"))) "px" rfl

/-- C10: a 200 response whose JSON body lacks the generated_text key
makes get_llm_suggestion return the empty string, not an error, and the
rendered suggestion line for that finding is the unavailable marker. -/
theorem missing_generated_text_degrades_to_marker (f : Finding) :
    get_llm_suggestion f (HttpOutcome.resp 200 (RespBody.json none)) = some "" ∧
    suggestionLine (get_llm_suggestion f (HttpOutcome.resp 200 (RespBody.json none)))
      = "Suggestion: No suggestion available.\n" :=
  ⟨rfl, rfl⟩

end PatchPilot
